import Mathlib

/-!
Verification of the OrganizeFi personal-finance server (`server.js`).

The Express request handlers are shallowly embedded as pure Lean functions:
the Prisma store becomes an association list from record id to record, each
handler becomes a function from (store, session user id, request parameters,
request body) to (new store, HTTP response), and JavaScript numbers become
rationals (`ℚ`).  JavaScript request-body values are modelled by `JVal`
below.  Calendar dates are modelled only as far as the handlers inspect
them: a goal deadline is an abstract day index (`Int`, ordered), and a
transaction date is a (year, month) pair, which is all the chart and the
handlers use.
-/

namespace OrganizeFi

/-- A JavaScript value appearing in a JSON request-body field: absent
(`undef`), a number, or a string.  A string carries its JS numeric coercion
`asNum` (`Number(s)`; `none` models `NaN`).  JSON `null` and non-decimal
numeric strings (hex, `Infinity`) are outside the model. -/
inductive JVal where
  | undef
  | num (q : ℚ)
  | str (s : String) (asNum : Option ℚ)
deriving DecidableEq

/-- JavaScript truthiness of a `JVal`: `undefined` is falsy, a number is
truthy iff nonzero, a string is truthy iff nonempty. -/
def truthy : JVal → Bool
  | .undef => false
  | .num q => q != 0
  | .str s _ => s != ""

/-- JS `Number(v)` coercion; `none` models `NaN`. -/
def toNumber : JVal → Option ℚ
  | .undef => none
  | .num q => some q
  | .str _ a => a

/-- JS `isNaN(v)` (after `Number` coercion). -/
def jsIsNaN (v : JVal) : Bool := (toNumber v).isNone

/-- JS `v <= 0` on a value whose coercion is a number; `NaN <= 0` is false. -/
def jsLeZero (v : JVal) : Bool :=
  match toNumber v with
  | some q => q ≤ 0
  | none => false

/-- JS `v < 0` on a value whose coercion is a number; `NaN < 0` is false. -/
def jsLtZero (v : JVal) : Bool :=
  match toNumber v with
  | some q => q < 0
  | none => false

/-- JS `parseFloat(v)`.  Every use below sits behind a guard that already
rejected `NaN` coercions, where `parseFloat` agrees with `Number`; the
`getD 0` default is never reached on those paths. -/
def jsParseFloat (v : JVal) : ℚ := (toNumber v).getD 0

/-- The raw string payload of a `JVal`; used where the handler stores a
validated string field verbatim (every such path has already checked the
value is a truthy string drawn from a fixed list). -/
def jvalStr : JVal → String
  | .str s _ => s
  | _ => ""

/-- JS `v === s` for a string literal `s`. -/
def isStrVal : JVal → String → Bool
  | .str t _, s => t == s
  | _, _ => false

/-- `\d` of the id regex: a decimal digit (code points 48-57). -/
def isDigitChar (c : Char) : Bool := 48 ≤ c.toNat && c.toNat ≤ 57

/-- `validateIntegerId` from `server.js`: the id must match `/^\d+$/`
(nonempty, digits only), then is parsed with `parseInt(value, 10)`. -/
def validateIntegerId (s : String) : Option Nat :=
  if s.data.isEmpty || !(s.data.all isDigitChar) then none
  else some (s.data.foldl (fun n c => 10 * n + (c.toNat - 48)) 0)

/-- `isDateInPast` from `server.js`, on day indexes: date-only comparison
against today. -/
def isDateInPast (d today : Int) : Bool := d < today

/-- JS `Math.round` (floating-point corner cases aside, `Math.round x`
is `⌊x + 1/2⌋`). -/
def jsRound (q : ℚ) : ℤ := ⌊q + 1 / 2⌋

/-- A stored Goal row (`prisma.goal`).  `deadline` is an abstract day
index; `createdAt`/`updatedAt` are not inspected by any property below. -/
structure Goal where
  userId : Nat
  name : String
  targetAmount : ℚ
  currentAmount : ℚ
  deadline : Int
  category : Option String
  description : Option String
  status : String
deriving DecidableEq

/-- The progress expression attached to every goal the server returns
(it appears verbatim in the list, get, recent, update and update-amount
handlers):
`goal.targetAmount > 0 ? Math.min(Math.round(current / target * 100), 100) : 0`. -/
def goalProgress (g : Goal) : ℤ :=
  if 0 < g.targetAmount then
    min (jsRound (g.currentAmount / g.targetAmount * 100)) 100
  else 0

/-- The goal table: an association list from id to row. -/
abbrev GoalStore := List (Nat × Goal)

/-- `prisma.goal.findUnique({ where: { id } })`. -/
def findGoal (s : GoalStore) (i : Nat) : Option Goal :=
  (s.find? (fun p => p.1 == i)).map (·.2)

/-- `prisma.goal.update({ where: { id } , data })`: replace the row with id `i`. -/
def setGoal (s : GoalStore) (i : Nat) (g : Goal) : GoalStore :=
  s.map (fun p => if p.1 == i then (i, g) else p)

/-- `prisma.goal.delete({ where: { id } })`. -/
def removeGoal (s : GoalStore) (i : Nat) : GoalStore :=
  s.filter (fun p => p.1 != i)

/-- Responses of the goal endpoints: an error `{error}` with its HTTP
status, or the success bodies (`{goal}`, `{message, goal}` with attached
progress, or `{message}`). -/
inductive GoalResp where
  | err (status : Nat) (error : String)
  | okGoal (goal : Goal) (progress : ℤ)
  | okMsgGoal (message : String) (goal : Goal) (progress : ℤ)
  | okMsg (message : String)
deriving DecidableEq

/-- `GET /api/goals/:id`: id validation, ownership check, then the goal with
attached progress. -/
def getGoal (store : GoalStore) (uid : Nat) (idParam : String) : GoalResp :=
  match validateIntegerId idParam with
  | none => .err 400 "ID inválido"
  | some goalId =>
    match findGoal store goalId with
    | none => .err 404 "Meta não encontrada"
    | some goal =>
      if goal.userId != uid then .err 404 "Meta não encontrada"
      else .okGoal goal (goalProgress goal)

/-- `DELETE /api/goals/:id`. -/
def deleteGoal (store : GoalStore) (uid : Nat) (idParam : String) :
    GoalStore × GoalResp :=
  match validateIntegerId idParam with
  | none => (store, .err 400 "ID inválido")
  | some goalId =>
    match findGoal store goalId with
    | none => (store, .err 404 "Meta não encontrada")
    | some goal =>
      if goal.userId != uid then (store, .err 404 "Meta não encontrada")
      else (removeGoal store goalId, .okMsg "Meta deletada com sucesso!")

/-- Request body of `PUT /api/goals/:id`.  `deadline` is the modelled
outcome of `new Date(deadline)` on the supplied value: `none` when the field
is absent or falsy, `some none` when it is truthy but unparsable, and
`some (some d)` when it parses to day index `d`. -/
structure GoalUpdateBody where
  name : JVal
  targetAmount : JVal
  currentAmount : JVal
  deadline : Option (Option Int)
  category : JVal
  description : JVal
  status : JVal
deriving DecidableEq

/-- `const finalTargetAmount = targetAmount ? parseFloat(targetAmount)
: existingGoal.targetAmount` (also the merged `updateData.targetAmount`). -/
def finalTargetAmount (b : GoalUpdateBody) (existingGoal : Goal) : ℚ :=
  if truthy b.targetAmount then jsParseFloat b.targetAmount
  else existingGoal.targetAmount

/-- `const finalCurrentAmount = currentAmount !== undefined
? parseFloat(currentAmount) : existingGoal.currentAmount` (also the merged
`updateData.currentAmount`). -/
def finalCurrentAmount (b : GoalUpdateBody) (existingGoal : Goal) : ℚ :=
  if b.currentAmount != JVal.undef then jsParseFloat b.currentAmount
  else existingGoal.currentAmount

/-- The `updateData.status` assignment of `PUT /api/goals/:id`: when status
was not explicitly supplied, auto-complete on reaching the target and
reactivate a completed goal that fell below it; otherwise store the supplied
status.  `none` means the field is not written (the stored status stays). -/
def updateStatusField (b : GoalUpdateBody) (existingGoal : Goal) : Option String :=
  if !truthy b.status then
    if finalCurrentAmount b existingGoal ≥ finalTargetAmount b existingGoal then
      some "completed"
    else if existingGoal.status = "completed" ∧
        finalCurrentAmount b existingGoal < finalTargetAmount b existingGoal then
      some "active"
    else none
  else some (jvalStr b.status)

/-- The merged `updateData` of `PUT /api/goals/:id` applied over the stored
row: only supplied fields change; `category`/`description` follow the
`category !== undefined` / `category || null` sentinel convention. -/
def updatedGoal (b : GoalUpdateBody) (existingGoal : Goal) : Goal :=
  { existingGoal with
    name := if truthy b.name then jvalStr b.name else existingGoal.name
    targetAmount := finalTargetAmount b existingGoal
    currentAmount := finalCurrentAmount b existingGoal
    deadline :=
      match b.deadline with
      | some (some d) => d
      | _ => existingGoal.deadline
    category :=
      if b.category != JVal.undef then
        (if truthy b.category then some (jvalStr b.category) else none)
      else existingGoal.category
    description :=
      if b.description != JVal.undef then
        (if truthy b.description then some (jvalStr b.description) else none)
      else existingGoal.description
    status := (updateStatusField b existingGoal).getD existingGoal.status }

/-- Tail of `PUT /api/goals/:id` after the deadline checks: status
validation, then the persisted update and the enriched response. -/
def updateGoalFinish (store : GoalStore) (goalId : Nat) (b : GoalUpdateBody)
    (existingGoal : Goal) : GoalStore × GoalResp :=
  if truthy b.status &&
      !(isStrVal b.status "active" || isStrVal b.status "completed" ||
        isStrVal b.status "cancelled") then
    (store, .err 400 "Status deve ser \"active\", \"completed\" ou \"cancelled\"")
  else
    (setGoal store goalId (updatedGoal b existingGoal),
     .okMsgGoal "Meta atualizada com sucesso!" (updatedGoal b existingGoal)
       (goalProgress (updatedGoal b existingGoal)))

/-- `PUT /api/goals/:id`: id validation, ownership check, field validations
in source order, then the partial update with the status auto-transition. -/
def updateGoal (store : GoalStore) (uid : Nat) (idParam : String)
    (b : GoalUpdateBody) (today : Int) : GoalStore × GoalResp :=
  match validateIntegerId idParam with
  | none => (store, .err 400 "ID inválido")
  | some goalId =>
    match findGoal store goalId with
    | none => (store, .err 404 "Meta não encontrada")
    | some existingGoal =>
      if existingGoal.userId != uid then (store, .err 404 "Meta não encontrada")
      else if truthy b.targetAmount &&
          (jsIsNaN b.targetAmount || jsLeZero b.targetAmount) then
        (store, .err 400 "Valor alvo deve ser um número positivo")
      else if b.currentAmount != JVal.undef &&
          (jsIsNaN b.currentAmount || jsLtZero b.currentAmount) then
        (store, .err 400 "Valor atual deve ser um número não-negativo")
      else
        match b.deadline with
        | some none => (store, .err 400 "Prazo inválido")
        | some (some d) =>
          if isDateInPast d today then
            (store, .err 400 "Prazo não pode estar no passado")
          else updateGoalFinish store goalId b existingGoal
        | none => updateGoalFinish store goalId b existingGoal

/-- `const newStatus` of `PUT /api/goals/:id/amount`: force completion on
reaching the target, otherwise keep the stored status. -/
def amountNewStatus (existingGoal : Goal) (newCurrentAmount : ℚ) : String :=
  if newCurrentAmount ≥ existingGoal.targetAmount then "completed"
  else existingGoal.status

/-- `PUT /api/goals/:id/amount`: id validation, amount validation
(`!amount || isNaN(amount) || amount < 0`), ownership check, then the
update of `currentAmount` and the completion message. -/
def updateGoalAmount (store : GoalStore) (uid : Nat) (idParam : String)
    (amount : JVal) : GoalStore × GoalResp :=
  match validateIntegerId idParam with
  | none => (store, .err 400 "ID inválido")
  | some goalId =>
    if !truthy amount || jsIsNaN amount || jsLtZero amount then
      (store, .err 400 "Valor deve ser um número não-negativo")
    else
      match findGoal store goalId with
      | none => (store, .err 404 "Meta não encontrada")
      | some existingGoal =>
        if existingGoal.userId != uid then (store, .err 404 "Meta não encontrada")
        else
          (setGoal store goalId
            { existingGoal with
              currentAmount := jsParseFloat amount
              status := amountNewStatus existingGoal (jsParseFloat amount) },
           .okMsgGoal
             (if amountNewStatus existingGoal (jsParseFloat amount) = "completed" then
                "Parabéns! Meta concluída!"
              else "Progresso atualizado com sucesso!")
             { existingGoal with
               currentAmount := jsParseFloat amount
               status := amountNewStatus existingGoal (jsParseFloat amount) }
             (goalProgress
               { existingGoal with
                 currentAmount := jsParseFloat amount
                 status := amountNewStatus existingGoal (jsParseFloat amount) }))

/-- A sample stored goal used in concrete instantiations below. -/
def gEx : Goal :=
  { userId := 7, name := "Viagem", targetAmount := 200, currentAmount := 50,
    deadline := 20300, category := none, description := none, status := "active" }

/-- C1: for every goal with a non-negative stored `currentAmount` (all
goal-returning handlers maintain this), the attached progress equals
`clamp (round (current / target * 100)) 0 100`, and is `0` when
`targetAmount = 0`. -/
theorem goalProgress_eq_clamp (g : Goal) (h : 0 ≤ g.currentAmount) :
    goalProgress g = max 0 (min (jsRound (g.currentAmount / g.targetAmount * 100)) 100) ∧
    (g.targetAmount = 0 → goalProgress g = 0) := by
  constructor
  · unfold goalProgress
    by_cases ht : 0 < g.targetAmount
    · rw [if_pos ht]
      have hx : (0 : ℚ) ≤ g.currentAmount / g.targetAmount * 100 := by positivity
      have hr : 0 ≤ jsRound (g.currentAmount / g.targetAmount * 100) := by
        unfold jsRound
        exact Int.floor_nonneg.mpr (by linarith)
      omega
    · rw [if_neg ht]
      have ht2 : g.targetAmount ≤ 0 := le_of_not_lt ht
      have hx : g.currentAmount / g.targetAmount * 100 ≤ 0 := by
        rcases lt_or_eq_of_le ht2 with hlt | heq
        · have : g.currentAmount / g.targetAmount ≤ 0 :=
            div_nonpos_of_nonneg_of_nonpos h (le_of_lt hlt)
          nlinarith
        · rw [heq, div_zero, zero_mul]
      have hr : jsRound (g.currentAmount / g.targetAmount * 100) ≤ 0 := by
        unfold jsRound
        have h12 : g.currentAmount / g.targetAmount * 100 + 1 / 2 ≤ 1 / 2 := by linarith
        calc ⌊g.currentAmount / g.targetAmount * 100 + 1 / 2⌋
            ≤ ⌊(1 / 2 : ℚ)⌋ := Int.floor_le_floor h12
          _ = 0 := by norm_num
      omega
  · intro h0
    unfold goalProgress
    rw [h0]
    simp

/-- Witness for C1 at a concrete goal (target 200, current 50): progress 25. -/
theorem goalProgress_eq_clamp_witness :
    goalProgress gEx = max 0 (min (jsRound (gEx.currentAmount / gEx.targetAmount * 100)) 100) ∧
    goalProgress gEx = 25 :=
  ⟨(goalProgress_eq_clamp gEx (by norm_num [gEx])).1, by norm_num [goalProgress, gEx, jsRound]⟩

/-- A stored goal already completed although below target (reachable via an
explicit `status` in `PUT /api/goals/:id`). -/
def gDone : Goal :=
  { userId := 7, name := "Reserva", targetAmount := 100, currentAmount := 100,
    deadline := 20300, category := none, description := none, status := "completed" }

/-- C3: every successful `PUT /api/goals/:id/amount` stores
`currentAmount = amount`, keeps the target, completes the goal when
`amount ≥ targetAmount` and otherwise leaves the status untouched — in
particular a completed goal never reverts to active on this path. -/
theorem updateGoalAmount_spec (store store2 : GoalStore) (uid goalId : Nat)
    (idParam : String) (amount : JVal) (g0 gOut : Goal) (msg : String) (p : ℤ)
    (hid : validateIntegerId idParam = some goalId)
    (hfind : findGoal store goalId = some g0)
    (hok : updateGoalAmount store uid idParam amount =
      (store2, .okMsgGoal msg gOut p)) :
    gOut.currentAmount = jsParseFloat amount ∧
    gOut.targetAmount = g0.targetAmount ∧
    (gOut.currentAmount ≥ g0.targetAmount → gOut.status = "completed") ∧
    (gOut.currentAmount < g0.targetAmount → gOut.status = g0.status) ∧
    (g0.status = "completed" → gOut.status = "completed") ∧
    store2 = setGoal store goalId gOut := by
  simp only [updateGoalAmount, hid, hfind] at hok
  split at hok
  · exact absurd hok (by simp)
  · split at hok
    · exact absurd hok (by simp)
    · rw [Prod.mk.injEq, GoalResp.okMsgGoal.injEq] at hok
      obtain ⟨hstore, hmsg, hgoal, hp⟩ := hok
      subst hgoal
      refine ⟨rfl, rfl, ?_, ?_, ?_, hstore.symm⟩
      · intro hge
        simp only [amountNewStatus]
        rw [if_pos hge]
      · intro hlt
        simp only [amountNewStatus]
        rw [if_neg (not_le_of_lt hlt)]
      · intro hdone
        simp only [amountNewStatus]
        split
        · rfl
        · exact hdone

/-- Witness for C3: amount 200 on the sample goal (target 200) completes it. -/
theorem updateGoalAmount_spec_witness :
    let gOut : Goal := { gEx with currentAmount := 200, status := "completed" }
    gOut.currentAmount = jsParseFloat (JVal.num 200) ∧
    gOut.targetAmount = gEx.targetAmount ∧
    (gOut.currentAmount ≥ gEx.targetAmount → gOut.status = "completed") ∧
    (gOut.currentAmount < gEx.targetAmount → gOut.status = gEx.status) ∧
    (gEx.status = "completed" → gOut.status = "completed") ∧
    setGoal [(1, gEx)] 1 gOut = setGoal [(1, gEx)] 1 gOut :=
  updateGoalAmount_spec [(1, gEx)] (setGoal [(1, gEx)] 1
      { gEx with currentAmount := 200, status := "completed" }) 7 1 "1"
    (JVal.num 200) gEx { gEx with currentAmount := 200, status := "completed" }
    "Parabéns! Meta concluída!" 100 (by decide) (by decide)
    (by
      have h1 : validateIntegerId "1" = some 1 := by decide
      have h2 : findGoal [(1, gEx)] 1 = some gEx := by decide
      simp only [updateGoalAmount, h1, h2]
      norm_num [gEx, amountNewStatus, truthy, jsIsNaN, jsLtZero,
        jsParseFloat, toNumber, goalProgress, jsRound, setGoal])

/-- C5: `PUT /api/goals/:id/amount` with amount 0, missing, negative or
non-numeric fails with the validation error (HTTP 400) before touching the
store. -/
theorem updateGoalAmount_rejects_invalid (store : GoalStore) (uid goalId : Nat)
    (idParam : String) (amount : JVal)
    (hid : validateIntegerId idParam = some goalId)
    (hbad : amount = JVal.num 0 ∨ amount = JVal.undef ∨
      jsLtZero amount = true ∨ jsIsNaN amount = true) :
    updateGoalAmount store uid idParam amount =
      (store, .err 400 "Valor deve ser um número não-negativo") := by
  have hcond : (!truthy amount || jsIsNaN amount || jsLtZero amount) = true := by
    rcases hbad with h | h | h | h
    · subst h; decide
    · subst h; decide
    · simp [h]
    · simp [h]
  simp only [updateGoalAmount, hid, hcond, if_true]

/-- Witness for C5: amount 0 is rejected as falsy. -/
theorem updateGoalAmount_rejects_invalid_witness :
    updateGoalAmount [(1, gEx)] 7 "1" (JVal.num 0) =
      ([(1, gEx)], .err 400 "Valor deve ser um número não-negativo") :=
  updateGoalAmount_rejects_invalid [(1, gEx)] 7 1 "1" (JVal.num 0)
    (by decide) (Or.inl rfl)

/-- C4 counterexample: on a goal that is already `completed` (target 100,
current 100), `PUT /api/goals/:id/amount` with amount 50 answers with the
distinguished "goal completed" message even though no transition to
completed happens on this call (the claim requires the normal message
here). -/
theorem updateGoalAmount_message_without_transition :
    gDone.status = "completed" ∧
    (updateGoalAmount [(2, gDone)] 7 "2" (JVal.num 50)).2 =
      .okMsgGoal "Parabéns! Meta concluída!"
        { gDone with currentAmount := 50, status := "completed" } 50 := by
  constructor
  · rfl
  · have h1 : validateIntegerId "2" = some 2 := by decide
    have h2 : findGoal [(2, gDone)] 2 = some gDone := by decide
    simp only [updateGoalAmount, h1, h2]
    norm_num [gDone, amountNewStatus, truthy, jsIsNaN, jsLtZero,
      jsParseFloat, toNumber, goalProgress, jsRound, setGoal]

/-- C4 amended: the successful `PUT /api/goals/:id/amount` response carries
the "goal completed" message iff the goal's status after the call is
`completed` (whether or not it was completed before); otherwise it carries
the normal progress-update message. -/
theorem updateGoalAmount_message_iff_completed (store store2 : GoalStore)
    (uid goalId : Nat) (idParam : String) (amount : JVal) (g0 gOut : Goal)
    (msg : String) (p : ℤ)
    (hid : validateIntegerId idParam = some goalId)
    (hfind : findGoal store goalId = some g0)
    (hok : updateGoalAmount store uid idParam amount =
      (store2, .okMsgGoal msg gOut p)) :
    (msg = "Parabéns! Meta concluída!" ↔ gOut.status = "completed") ∧
    (msg = "Progresso atualizado com sucesso!" ↔ gOut.status ≠ "completed") := by
  simp only [updateGoalAmount, hid, hfind] at hok
  split at hok
  · exact absurd hok (by simp)
  · split at hok
    · exact absurd hok (by simp)
    · rw [Prod.mk.injEq, GoalResp.okMsgGoal.injEq] at hok
      obtain ⟨hstore, hmsg, hgoal, hp⟩ := hok
      have hstat : gOut.status = amountNewStatus g0 (jsParseFloat amount) := by
        rw [← hgoal]
      by_cases h : amountNewStatus g0 (jsParseFloat amount) = "completed"
      · rw [if_pos h] at hmsg
        rw [← hmsg, hstat, h]
        exact ⟨by simp, ⟨fun hbad => absurd hbad (by decide),
          fun hbad => absurd rfl hbad⟩⟩
      · rw [if_neg h] at hmsg
        rw [← hmsg, hstat]
        exact ⟨⟨fun hbad => absurd hbad (by decide), fun hs => absurd hs h⟩,
          ⟨fun _ => h, fun _ => rfl⟩⟩

/-- Witness for C4's amended theorem: amount 200 on the sample active goal
(target 200) yields the completed status and the completed message. -/
theorem updateGoalAmount_message_iff_completed_witness :
    ("Parabéns! Meta concluída!" = "Parabéns! Meta concluída!" ↔
      ({ gEx with currentAmount := 200, status := "completed" } : Goal).status =
        "completed") ∧
    ("Parabéns! Meta concluída!" = "Progresso atualizado com sucesso!" ↔
      ({ gEx with currentAmount := 200, status := "completed" } : Goal).status ≠
        "completed") :=
  updateGoalAmount_message_iff_completed [(1, gEx)] (setGoal [(1, gEx)] 1
      { gEx with currentAmount := 200, status := "completed" }) 7 1 "1"
    (JVal.num 200) gEx { gEx with currentAmount := 200, status := "completed" }
    "Parabéns! Meta concluída!" 100 (by decide) (by decide)
    (by
      have h1 : validateIntegerId "1" = some 1 := by decide
      have h2 : findGoal [(1, gEx)] 1 = some gEx := by decide
      simp only [updateGoalAmount, h1, h2]
      norm_num [gEx, amountNewStatus, truthy, jsIsNaN, jsLtZero,
        jsParseFloat, toNumber, goalProgress, jsRound, setGoal])

/-- A successful `updateGoalFinish` returns and persists `updatedGoal`. -/
theorem updateGoalFinish_ok (store store2 : GoalStore) (goalId : Nat)
    (b : GoalUpdateBody) (g0 gOut : Goal) (msg : String) (p : ℤ)
    (hok : updateGoalFinish store goalId b g0 = (store2, .okMsgGoal msg gOut p)) :
    gOut = updatedGoal b g0 ∧ store2 = setGoal store goalId (updatedGoal b g0) := by
  simp only [updateGoalFinish] at hok
  split at hok
  · exact absurd hok (by simp)
  · rw [Prod.mk.injEq, GoalResp.okMsgGoal.injEq] at hok
    exact ⟨hok.2.2.1.symm, hok.1.symm⟩

/-- A successful `PUT /api/goals/:id` returns exactly the merged update of
the stored goal. -/
theorem updateGoal_ok_goal (store store2 : GoalStore) (uid goalId : Nat)
    (idParam : String) (b : GoalUpdateBody) (today : Int) (g0 gOut : Goal)
    (msg : String) (p : ℤ)
    (hid : validateIntegerId idParam = some goalId)
    (hfind : findGoal store goalId = some g0)
    (hok : updateGoal store uid idParam b today = (store2, .okMsgGoal msg gOut p)) :
    gOut = updatedGoal b g0 := by
  simp only [updateGoal, hid, hfind] at hok
  split at hok
  · exact absurd hok (by simp)
  · split at hok
    · exact absurd hok (by simp)
    · split at hok
      · exact absurd hok (by simp)
      · split at hok
        · exact absurd hok (by simp)
        · split at hok
          · exact absurd hok (by simp)
          · exact (updateGoalFinish_ok _ _ _ _ _ _ _ _ hok).1
        · exact (updateGoalFinish_ok _ _ _ _ _ _ _ _ hok).1

/-- C2: in a successful `PUT /api/goals/:id` without an explicitly supplied
status, the stored status becomes `completed` when the resulting
`currentAmount` reaches the resulting `targetAmount`, and reverts to
`active` when the goal was `completed` and the resulting `currentAmount`
fell below the target; an explicitly supplied (hence validated) status is
stored verbatim. -/
theorem updateGoal_status_rule (store store2 : GoalStore) (uid goalId : Nat)
    (idParam : String) (b : GoalUpdateBody) (today : Int) (g0 gOut : Goal)
    (msg : String) (p : ℤ)
    (hid : validateIntegerId idParam = some goalId)
    (hfind : findGoal store goalId = some g0)
    (hok : updateGoal store uid idParam b today = (store2, .okMsgGoal msg gOut p)) :
    (truthy b.status = false →
      (gOut.currentAmount ≥ gOut.targetAmount → gOut.status = "completed") ∧
      (g0.status = "completed" → gOut.currentAmount < gOut.targetAmount →
        gOut.status = "active")) ∧
    (truthy b.status = true → gOut.status = jvalStr b.status) := by
  have hg : gOut = updatedGoal b g0 :=
    updateGoal_ok_goal store store2 uid goalId idParam b today g0 gOut msg p
      hid hfind hok
  subst hg
  have hcur : (updatedGoal b g0).currentAmount = finalCurrentAmount b g0 := rfl
  have htar : (updatedGoal b g0).targetAmount = finalTargetAmount b g0 := rfl
  constructor
  · intro hns
    constructor
    · intro hge
      rw [hcur, htar] at hge
      show (updateStatusField b g0).getD g0.status = "completed"
      simp only [updateStatusField, hns, Bool.not_false, if_true]
      rw [if_pos hge]
      rfl
    · intro hdone hlt
      rw [hcur, htar] at hlt
      show (updateStatusField b g0).getD g0.status = "active"
      simp only [updateStatusField, hns, Bool.not_false, if_true]
      rw [if_neg (not_le_of_lt hlt), if_pos ⟨hdone, hlt⟩]
      rfl
  · intro hs
    show (updateStatusField b g0).getD g0.status = jvalStr b.status
    simp only [updateStatusField, hs, Bool.not_true, Bool.false_eq_true,
      if_false]
    rfl

/-- An update body supplying only `currentAmount = 200`. -/
def bCur200 : GoalUpdateBody :=
  { name := .undef, targetAmount := .undef, currentAmount := .num 200,
    deadline := none, category := .undef, description := .undef,
    status := .undef }

/-- Witness for C2: raising `currentAmount` to the target (200) without an
explicit status completes the sample goal. -/
theorem updateGoal_status_rule_witness :
    (truthy bCur200.status = false →
      (({ gEx with currentAmount := 200, status := "completed" } : Goal).currentAmount ≥
          ({ gEx with currentAmount := 200, status := "completed" } : Goal).targetAmount →
        ({ gEx with currentAmount := 200, status := "completed" } : Goal).status =
          "completed") ∧
      (gEx.status = "completed" →
        ({ gEx with currentAmount := 200, status := "completed" } : Goal).currentAmount <
          ({ gEx with currentAmount := 200, status := "completed" } : Goal).targetAmount →
        ({ gEx with currentAmount := 200, status := "completed" } : Goal).status =
          "active")) ∧
    (truthy bCur200.status = true →
      ({ gEx with currentAmount := 200, status := "completed" } : Goal).status =
        jvalStr bCur200.status) :=
  updateGoal_status_rule [(1, gEx)] (setGoal [(1, gEx)] 1
      { gEx with currentAmount := 200, status := "completed" }) 7 1 "1"
    bCur200 0 gEx { gEx with currentAmount := 200, status := "completed" }
    "Meta atualizada com sucesso!" 100 (by decide) (by decide)
    (by
      have h1 : validateIntegerId "1" = some 1 := by decide
      have h2 : findGoal [(1, gEx)] 1 = some gEx := by decide
      simp only [updateGoal, h1, h2]
      norm_num [gEx, bCur200, updateGoalFinish, updatedGoal, updateStatusField,
        finalTargetAmount, finalCurrentAmount, truthy, jsIsNaN, jsLtZero,
        jsLeZero, jsParseFloat, jvalStr, toNumber, goalProgress, jsRound,
        setGoal, (show JVal.num 200 ≠ JVal.undef by decide)])

/-- An update body supplying only `targetAmount = 0`. -/
def bTargetZero : GoalUpdateBody :=
  { name := .undef, targetAmount := .num 0, currentAmount := .undef,
    deadline := none, category := .undef, description := .undef,
    status := .undef }

/-- An update body supplying only `targetAmount = -5`. -/
def bTargetNeg : GoalUpdateBody :=
  { bTargetZero with targetAmount := .num (-5) }

/-- C9 counterexample: `PUT /api/goals/:id` with supplied `targetAmount = 0`
does not fail — `0` is falsy, so the validation and the assignment are both
skipped, and the update succeeds (HTTP 200) leaving the goal unchanged. -/
theorem updateGoal_targetAmount_zero_not_rejected :
    updateGoal [(1, gEx)] 7 "1" bTargetZero 0 =
      ([(1, gEx)], .okMsgGoal "Meta atualizada com sucesso!" gEx 25) := by
  have h1 : validateIntegerId "1" = some 1 := by decide
  have h2 : findGoal [(1, gEx)] 1 = some gEx := by decide
  simp only [updateGoal, h1, h2]
  norm_num [gEx, bTargetZero, updateGoalFinish, updatedGoal, updateStatusField,
    finalTargetAmount, finalCurrentAmount, truthy, jsIsNaN, jsLtZero,
    jsLeZero, jsParseFloat, jvalStr, toNumber, goalProgress, jsRound, setGoal,
    (show "active" ≠ "completed" by decide)]

/-- C9 amended: a supplied `targetAmount` that is non-numeric or coerces to
a negative number fails with the validation error (HTTP 400) and leaves the
store unchanged, but a supplied `targetAmount = 0` is treated exactly as if
`targetAmount` had not been supplied (silently ignored). -/
theorem updateGoal_targetAmount_validation (store : GoalStore)
    (uid goalId : Nat) (idParam : String) (b : GoalUpdateBody) (today : Int)
    (g0 : Goal)
    (hid : validateIntegerId idParam = some goalId)
    (hfind : findGoal store goalId = some g0)
    (howner : g0.userId = uid) :
    (truthy b.targetAmount = true →
      jsIsNaN b.targetAmount = true ∨ jsLeZero b.targetAmount = true →
      updateGoal store uid idParam b today =
        (store, .err 400 "Valor alvo deve ser um número positivo")) ∧
    (b.targetAmount = JVal.num 0 →
      updateGoal store uid idParam b today =
        updateGoal store uid idParam { b with targetAmount := JVal.undef }
          today) := by
  constructor
  · intro ht hbad
    have hc : (truthy b.targetAmount &&
        (jsIsNaN b.targetAmount || jsLeZero b.targetAmount)) = true := by
      rcases hbad with h | h <;> simp [ht, h]
    simp [updateGoal, hid, hfind, howner, hc]
  · intro hz
    obtain ⟨bn, bt, bc, bd, bca, bde, bs⟩ := b
    simp only at hz
    subst hz
    have e1 : truthy (JVal.num 0) = false := by decide
    have e2 : truthy JVal.undef = false := by decide
    simp only [updateGoal, hid, hfind, e1, e2, Bool.false_and,
      Bool.false_eq_true, if_false]
    cases bd with
    | none =>
      simp only [updateGoalFinish, updatedGoal, finalTargetAmount,
        finalCurrentAmount, updateStatusField, e1, e2, Bool.false_eq_true,
        if_false]
    | some od =>
      cases od with
      | none => rfl
      | some d =>
        simp only [updateGoalFinish, updatedGoal, finalTargetAmount,
          finalCurrentAmount, updateStatusField, e1, e2, Bool.false_eq_true,
          if_false]

/-- Witness for C9's amended theorem: a supplied `targetAmount = -5` is
rejected with the validation error and the store is unchanged. -/
theorem updateGoal_targetAmount_validation_witness :
    updateGoal [(1, gEx)] 7 "1" bTargetNeg 0 =
      ([(1, gEx)], .err 400 "Valor alvo deve ser um número positivo") :=
  (updateGoal_targetAmount_validation [(1, gEx)] 7 1 "1" bTargetNeg 0 gEx
    (by decide) (by decide) (by decide)).1 (by decide) (Or.inr (by decide))

/-- Calendar position of a stored transaction date: JS `getFullYear()` and
0-based `getMonth()`.  Day-of-month and time-of-day are not inspected by
the handlers modelled here. -/
structure JDate where
  year : Int
  month : Int
deriving DecidableEq

/-- Linear month index of a date.  For calendar dates (`month ∈ [0, 12)`)
it orders exactly like the underlying `Date` value at whole-month
granularity, which is how the chart query's `date >= startDate` bound
(first day of the oldest bucket month) acts. -/
def dateIdx (d : JDate) : Int := d.year * 12 + d.month

/-- A stored Transaction row (`prisma.transaction`). -/
structure Transaction where
  userId : Nat
  type : String
  category : String
  description : String
  amount : ℚ
  date : JDate
deriving DecidableEq

/-- The transaction table: an association list from id to row. -/
abbrev TxStore := List (Nat × Transaction)

/-- `prisma.transaction.findUnique({ where: { id } })`. -/
def findTx (s : TxStore) (i : Nat) : Option Transaction :=
  (s.find? (fun p => p.1 == i)).map (·.2)

/-- `prisma.transaction.update({ where: { id }, data })`. -/
def setTx (s : TxStore) (i : Nat) (t : Transaction) : TxStore :=
  s.map (fun p => if p.1 == i then (i, t) else p)

/-- `prisma.transaction.delete({ where: { id } })`. -/
def removeTx (s : TxStore) (i : Nat) : TxStore :=
  s.filter (fun p => p.1 != i)

/-- `prisma.transaction.findMany({ where: { userId } })`. -/
def txsOf (s : TxStore) (uid : Nat) : List Transaction :=
  (s.filter (fun p => p.2.userId == uid)).map (·.2)

/-- Responses of the transaction endpoints. -/
inductive TxResp where
  | err (status : Nat) (error : String)
  | okTx (transaction : Transaction)
  | okMsgTx (message : String) (transaction : Transaction)
  | okMsg (message : String)
deriving DecidableEq

/-- `GET /api/transactions/:id`. -/
def getTransaction (store : TxStore) (uid : Nat) (idParam : String) : TxResp :=
  match validateIntegerId idParam with
  | none => .err 400 "ID inválido"
  | some transactionId =>
    match findTx store transactionId with
    | none => .err 404 "Transação não encontrada"
    | some t =>
      if t.userId != uid then .err 404 "Transação não encontrada"
      else .okTx t

/-- Request body of `PUT /api/transactions/:id`.  `date` is the modelled
outcome of `new Date(date)` exactly as `GoalUpdateBody.deadline`. -/
structure TxUpdateBody where
  type : JVal
  category : JVal
  description : JVal
  amount : JVal
  date : Option (Option JDate)
deriving DecidableEq

/-- The merged `updateData` of `PUT /api/transactions/:id` applied over the
stored row: only supplied truthy fields change. -/
def updatedTransaction (b : TxUpdateBody) (t0 : Transaction) : Transaction :=
  { t0 with
    type := if truthy b.type then jvalStr b.type else t0.type
    category := if truthy b.category then jvalStr b.category else t0.category
    description :=
      if truthy b.description then jvalStr b.description else t0.description
    amount := if truthy b.amount then jsParseFloat b.amount else t0.amount
    date :=
      match b.date with
      | some (some d) => d
      | _ => t0.date }

/-- `PUT /api/transactions/:id`: id validation, ownership check, field
validations in source order, then the partial update. -/
def updateTransaction (store : TxStore) (uid : Nat) (idParam : String)
    (b : TxUpdateBody) : TxStore × TxResp :=
  match validateIntegerId idParam with
  | none => (store, .err 400 "ID inválido")
  | some transactionId =>
    match findTx store transactionId with
    | none => (store, .err 404 "Transação não encontrada")
    | some existingTransaction =>
      if existingTransaction.userId != uid then
        (store, .err 404 "Transação não encontrada")
      else if truthy b.type && !isStrVal b.type "expense" &&
          !isStrVal b.type "income" then
        (store, .err 400 "Tipo deve ser \"expense\" ou \"income\"")
      else if truthy b.amount && (jsIsNaN b.amount || jsLeZero b.amount) then
        (store, .err 400 "Valor deve ser um número positivo")
      else
        match b.date with
        | some none => (store, .err 400 "Data inválida")
        | _ =>
          (setTx store transactionId (updatedTransaction b existingTransaction),
           .okMsgTx "Transação atualizada com sucesso!"
             (updatedTransaction b existingTransaction))

/-- `DELETE /api/transactions/:id`. -/
def deleteTransaction (store : TxStore) (uid : Nat) (idParam : String) :
    TxStore × TxResp :=
  match validateIntegerId idParam with
  | none => (store, .err 400 "ID inválido")
  | some transactionId =>
    match findTx store transactionId with
    | none => (store, .err 404 "Transação não encontrada")
    | some t =>
      if t.userId != uid then (store, .err 404 "Transação não encontrada")
      else (removeTx store transactionId, .okMsg "Transação deletada com sucesso!")

/-- A sample stored transaction used in concrete instantiations below. -/
def tEx : Transaction :=
  { userId := 7, type := "income", category := "Salário",
    description := "Janeiro", amount := 100, date := { year := 2026, month := 0 } }

/-- A transaction-update body supplying only `amount = 0`. -/
def bAmtZero : TxUpdateBody :=
  { type := .undef, category := .undef, description := .undef,
    amount := .num 0, date := none }

/-- C10: `PUT /api/transactions/:id` with supplied `amount = 0` on an owned
transaction (other supplied fields valid) succeeds and silently keeps the
stored amount: `0` is falsy, so the validation and the assignment are both
skipped. -/
theorem updateTransaction_amount_zero_ignored (store : TxStore)
    (uid transactionId : Nat) (idParam : String) (b : TxUpdateBody)
    (t0 : Transaction)
    (hid : validateIntegerId idParam = some transactionId)
    (hfind : findTx store transactionId = some t0)
    (howner : t0.userId = uid)
    (htype : (truthy b.type && !isStrVal b.type "expense" &&
      !isStrVal b.type "income") = false)
    (hdate : b.date ≠ some none)
    (hz : b.amount = JVal.num 0) :
    updateTransaction store uid idParam b =
      (setTx store transactionId (updatedTransaction b t0),
       .okMsgTx "Transação atualizada com sucesso!" (updatedTransaction b t0)) ∧
    (updatedTransaction b t0).amount = t0.amount := by
  have ha : (truthy b.amount && (jsIsNaN b.amount || jsLeZero b.amount)) = false := by
    rw [hz]; decide
  constructor
  · simp only [updateTransaction, hid, hfind, howner, bne_self_eq_false,
      Bool.false_eq_true, if_false, htype, ha]
  · simp [updatedTransaction, hz, truthy]

/-- Witness for C10: amount 0 on the sample transaction leaves it unchanged. -/
theorem updateTransaction_amount_zero_ignored_witness :
    updateTransaction [(1, tEx)] 7 "1" bAmtZero =
      (setTx [(1, tEx)] 1 (updatedTransaction bAmtZero tEx),
       .okMsgTx "Transação atualizada com sucesso!" (updatedTransaction bAmtZero tEx)) ∧
    (updatedTransaction bAmtZero tEx).amount = tEx.amount :=
  updateTransaction_amount_zero_ignored [(1, tEx)] 7 1 "1" bAmtZero tEx
    (by decide) (by decide) (by decide) (by decide) (by decide) (by decide)

/-- A stored goal owned by user 9, used to instantiate cross-owner access. -/
def gOther : Goal := { gEx with userId := 9 }

/-- A stored transaction owned by user 9. -/
def tOther : Transaction := { tEx with userId := 9 }

/-- C6: for every read, update or delete of a transaction or goal, a record
that is absent and a record owned by another user produce the same 404
response with the same error body, and the store is left unchanged — so the
two causes are indistinguishable and no cross-owner read or write succeeds.
(For the amount endpoint the amount must pass its validation, which runs
before the lookup.) -/
theorem ownership_scoped_not_found (tstore : TxStore) (gstore : GoalStore)
    (uid rid : Nat) (idParam : String) (tb : TxUpdateBody)
    (gb : GoalUpdateBody) (today : Int) (amt : JVal)
    (hid : validateIntegerId idParam = some rid)
    (htx : ∀ t, findTx tstore rid = some t → t.userId ≠ uid)
    (hgl : ∀ g, findGoal gstore rid = some g → g.userId ≠ uid)
    (hamt : (!truthy amt || jsIsNaN amt || jsLtZero amt) = false) :
    getTransaction tstore uid idParam = .err 404 "Transação não encontrada" ∧
    updateTransaction tstore uid idParam tb =
      (tstore, .err 404 "Transação não encontrada") ∧
    deleteTransaction tstore uid idParam =
      (tstore, .err 404 "Transação não encontrada") ∧
    getGoal gstore uid idParam = .err 404 "Meta não encontrada" ∧
    updateGoal gstore uid idParam gb today =
      (gstore, .err 404 "Meta não encontrada") ∧
    deleteGoal gstore uid idParam = (gstore, .err 404 "Meta não encontrada") ∧
    updateGoalAmount gstore uid idParam amt =
      (gstore, .err 404 "Meta não encontrada") := by
  refine ⟨?_, ?_, ?_, ?_, ?_, ?_, ?_⟩
  · simp only [getTransaction, hid]
    cases hf : findTx tstore rid with
    | none => rfl
    | some t =>
      have hb : (t.userId != uid) = true := by
        simpa [bne_iff_ne] using htx t hf
      simp [hb]
  · simp only [updateTransaction, hid]
    cases hf : findTx tstore rid with
    | none => rfl
    | some t =>
      have hb : (t.userId != uid) = true := by
        simpa [bne_iff_ne] using htx t hf
      simp [hb]
  · simp only [deleteTransaction, hid]
    cases hf : findTx tstore rid with
    | none => rfl
    | some t =>
      have hb : (t.userId != uid) = true := by
        simpa [bne_iff_ne] using htx t hf
      simp [hb]
  · simp only [getGoal, hid]
    cases hf : findGoal gstore rid with
    | none => rfl
    | some g =>
      have hb : (g.userId != uid) = true := by
        simpa [bne_iff_ne] using hgl g hf
      simp [hb]
  · simp only [updateGoal, hid]
    cases hf : findGoal gstore rid with
    | none => rfl
    | some g =>
      have hb : (g.userId != uid) = true := by
        simpa [bne_iff_ne] using hgl g hf
      simp [hb]
  · simp only [deleteGoal, hid]
    cases hf : findGoal gstore rid with
    | none => rfl
    | some g =>
      have hb : (g.userId != uid) = true := by
        simpa [bne_iff_ne] using hgl g hf
      simp [hb]
  · simp only [updateGoalAmount, hid, hamt, Bool.false_eq_true, if_false]
    cases hf : findGoal gstore rid with
    | none => rfl
    | some g =>
      have hb : (g.userId != uid) = true := by
        simpa [bne_iff_ne] using hgl g hf
      simp [hb]

/-- Witness for C6: user 7 requesting id 1, stored records owned by user 9;
every operation answers the same 404 and leaves the stores unchanged. -/
theorem ownership_scoped_not_found_witness :
    getTransaction [(1, tOther)] 7 "1" = .err 404 "Transação não encontrada" ∧
    updateTransaction [(1, tOther)] 7 "1" bAmtZero =
      ([(1, tOther)], .err 404 "Transação não encontrada") ∧
    deleteTransaction [(1, tOther)] 7 "1" =
      ([(1, tOther)], .err 404 "Transação não encontrada") ∧
    getGoal [(1, gOther)] 7 "1" = .err 404 "Meta não encontrada" ∧
    updateGoal [(1, gOther)] 7 "1" bCur200 0 =
      ([(1, gOther)], .err 404 "Meta não encontrada") ∧
    deleteGoal [(1, gOther)] 7 "1" = ([(1, gOther)], .err 404 "Meta não encontrada") ∧
    updateGoalAmount [(1, gOther)] 7 "1" (JVal.num 10) =
      ([(1, gOther)], .err 404 "Meta não encontrada") :=
  ownership_scoped_not_found [(1, tOther)] [(1, gOther)] 7 1 "1" bAmtZero
    bCur200 0 (JVal.num 10) (by decide)
    (by
      intro t ht
      have hcalc : findTx [(1, tOther)] 1 = some tOther := by decide
      rw [hcalc] at ht
      rw [← Option.some.inj ht]
      decide)
    (by
      intro g hg
      have hcalc : findGoal [(1, gOther)] 1 = some gOther := by decide
      rw [hcalc] at hg
      rw [← Option.some.inj hg]
      decide)
    (by decide)

/-- Response of `GET /api/transactions/summary/stats`. -/
structure SummaryStats where
  income : ℚ
  expenses : ℚ
  balance : ℚ
  transactionCount : Nat
deriving DecidableEq

/-- `GET /api/transactions/summary/stats`: full scan of the user's
transactions; income and expenses are `reduce((sum, t) => sum + t.amount, 0)`
over the type-filtered lists, balance their difference. -/
def summaryStats (store : TxStore) (uid : Nat) : SummaryStats :=
  let transactions := txsOf store uid
  let income := (transactions.filter (fun t => t.type == "income")).foldl
    (fun sum t => sum + t.amount) 0
  let expenses := (transactions.filter (fun t => t.type == "expense")).foldl
    (fun sum t => sum + t.amount) 0
  { income := income, expenses := expenses, balance := income - expenses,
    transactionCount := transactions.length }

/-- One entry of the `months` array of `GET /api/transactions/chart/monthly`.
The human-readable `label` (`toLocaleDateString`) is host-locale behaviour
and is not modelled. -/
structure MonthBucket where
  month : Int
  year : Int
  income : ℚ
  expenses : ℚ
deriving DecidableEq

/-- `new Date(y, m, 1)` month normalization: JS carries month overflow or
underflow into the year (floor division by 12), crossing year boundaries.
Returns `(getFullYear(), getMonth())`. -/
def monthDate (y m : Int) : Int × Int :=
  ((y * 12 + m) / 12, (y * 12 + m) % 12)

/-- The `months` array construction: `for (let i = 5; i >= 0; i--)` pushes
the bucket of `new Date(now.getFullYear(), now.getMonth() - i, 1)` with
zero totals, oldest first. -/
def chartMonths (nowYear nowMonth : Int) : List MonthBucket :=
  (List.range 6).map (fun j =>
    { month := (monthDate nowYear (nowMonth - (5 - (j : Int)))).2
      year := (monthDate nowYear (nowMonth - (5 - (j : Int)))).1
      income := 0, expenses := 0 })

/-- The `findIndex` predicate of the accumulation loop: the bucket whose
`(month, year)` equals the transaction date's `(getMonth(), getFullYear())`. -/
def matchesTx (m : MonthBucket) (t : Transaction) : Bool :=
  m.month == t.date.month && m.year == t.date.year

/-- The accumulation into the matched bucket: `income` transactions add to
`income`, every other type adds to `expenses`. -/
def bumpBucket (m : MonthBucket) (t : Transaction) : MonthBucket :=
  if t.type == "income" then { m with income := m.income + t.amount }
  else { m with expenses := m.expenses + t.amount }

/-- The `transactions.forEach` body: find the first bucket matching the
transaction's month and year and accumulate into it; a transaction matching
no bucket is skipped.  (`findIndex` plus in-place mutation, rendered as
structural recursion over the bucket list.) -/
def addTxToChart (months : List MonthBucket) (t : Transaction) :
    List MonthBucket :=
  match months with
  | [] => []
  | m :: rest =>
    if matchesTx m t then bumpBucket m t :: rest
    else m :: addTxToChart rest t

/-- `GET /api/transactions/chart/monthly`: query the user's transactions
with `date >= startDate` (first day of the oldest bucket month, i.e. linear
month index at least `nowYear * 12 + nowMonth - 5`), build the six zeroed
buckets, then accumulate.  The query's date-ascending ordering does not
affect the totals and is not modelled. -/
def monthlyChart (store : TxStore) (uid : Nat) (nowYear nowMonth : Int) :
    List MonthBucket :=
  ((txsOf store uid).filter
      (fun t => nowYear * 12 + nowMonth - 5 ≤ dateIdx t.date)).foldl
    addTxToChart (chartMonths nowYear nowMonth)

/-- Linear month index of a bucket. -/
def bucketIdx (b : MonthBucket) : Int := b.year * 12 + b.month

/-- The `(year, month)` key of a bucket. -/
def bucketKey (b : MonthBucket) : Int × Int := (b.year, b.month)

theorem bumpBucket_key (m : MonthBucket) (t : Transaction) :
    bucketKey (bumpBucket m t) = bucketKey m := by
  simp only [bumpBucket]
  split <;> rfl

theorem matchesTx_iff_key (m : MonthBucket) (t : Transaction) :
    matchesTx m t = true ↔ bucketKey m = (t.date.year, t.date.month) := by
  simp [matchesTx, bucketKey, Prod.ext_iff, and_comm]

theorem matchesTx_bump (m : MonthBucket) (t t2 : Transaction) :
    matchesTx (bumpBucket m t) t2 = matchesTx m t2 := by
  simp only [bumpBucket]
  split <;> rfl

theorem addTxToChart_length (ms : List MonthBucket) (t : Transaction) :
    (addTxToChart ms t).length = ms.length := by
  induction ms with
  | nil => rfl
  | cons m rest ih =>
    simp only [addTxToChart]
    split
    · simp
    · simp [ih]

theorem addTxToChart_keys (ms : List MonthBucket) (t : Transaction) :
    (addTxToChart ms t).map bucketKey = ms.map bucketKey := by
  induction ms with
  | nil => rfl
  | cons m rest ih =>
    simp only [addTxToChart]
    split
    · simp [bumpBucket_key]
    · simp [ih]

theorem addTxToChart_mem_src (ms : List MonthBucket) (t : Transaction)
    (b : MonthBucket) (hb : b ∈ addTxToChart ms t) :
    b ∈ ms ∨ matchesTx b t = true := by
  induction ms with
  | nil => simp [addTxToChart] at hb
  | cons m rest ih =>
    simp only [addTxToChart] at hb
    split at hb
    · rcases List.mem_cons.mp hb with hb1 | hb2
      · right
        rw [hb1, matchesTx_bump]
        assumption
      · exact Or.inl (List.mem_cons_of_mem m hb2)
    · rcases List.mem_cons.mp hb with hb1 | hb2
      · exact Or.inl (hb1 ▸ List.mem_cons_self m rest)
      · rcases ih hb2 with h | h
        · exact Or.inl (List.mem_cons_of_mem m h)
        · exact Or.inr h

theorem foldl_addTxToChart_keys (ts : List Transaction)
    (ms : List MonthBucket) :
    (ts.foldl addTxToChart ms).map bucketKey = ms.map bucketKey := by
  induction ts generalizing ms with
  | nil => rfl
  | cons t ts ih =>
    simp only [List.foldl_cons]
    rw [ih, addTxToChart_keys]

theorem foldl_addTxToChart_mem_src (ts : List Transaction)
    (ms : List MonthBucket) (b : MonthBucket)
    (hb : b ∈ ts.foldl addTxToChart ms) :
    b ∈ ms ∨ ∃ t ∈ ts, matchesTx b t = true := by
  induction ts generalizing ms with
  | nil => exact Or.inl hb
  | cons t ts ih =>
    simp only [List.foldl_cons] at hb
    rcases ih (addTxToChart ms t) hb with h | h
    · rcases addTxToChart_mem_src ms t b h with h2 | h2
      · exact Or.inl h2
      · exact Or.inr ⟨t, List.mem_cons_self t ts, h2⟩
    · obtain ⟨t2, ht2, hm⟩ := h
      exact Or.inr ⟨t2, List.mem_cons_of_mem t ht2, hm⟩

theorem addTxToChart_income_sum (ms : List MonthBucket) (t : Transaction)
    (h : ∃ m ∈ ms, matchesTx m t = true) :
    ((addTxToChart ms t).map (·.income)).sum =
      (ms.map (·.income)).sum +
        (if t.type == "income" then t.amount else 0) := by
  induction ms with
  | nil => simp at h
  | cons m rest ih =>
    simp only [addTxToChart]
    by_cases hm : matchesTx m t = true
    · rw [if_pos hm]
      simp only [List.map_cons, List.sum_cons, bumpBucket]
      by_cases hty : (t.type == "income") = true
      · rw [if_pos hty, if_pos hty]
        show m.income + t.amount + _ = _
        ring
      · rw [if_neg hty, if_neg hty]
        show m.income + _ = _
        ring
    · rw [if_neg hm]
      have h2 : ∃ m2 ∈ rest, matchesTx m2 t = true := by
        rcases h with ⟨m2, hmem, hmt⟩
        rcases List.mem_cons.mp hmem with h3 | h3
        · exact absurd (h3 ▸ hmt) hm
        · exact ⟨m2, h3, hmt⟩
      simp only [List.map_cons, List.sum_cons, ih h2]
      ring

theorem addTxToChart_expenses_sum (ms : List MonthBucket) (t : Transaction)
    (h : ∃ m ∈ ms, matchesTx m t = true) :
    ((addTxToChart ms t).map (·.expenses)).sum =
      (ms.map (·.expenses)).sum +
        (if t.type == "income" then 0 else t.amount) := by
  induction ms with
  | nil => simp at h
  | cons m rest ih =>
    simp only [addTxToChart]
    by_cases hm : matchesTx m t = true
    · rw [if_pos hm]
      simp only [List.map_cons, List.sum_cons, bumpBucket]
      by_cases hty : (t.type == "income") = true
      · rw [if_pos hty, if_pos hty]
        show m.expenses + _ = _
        ring
      · rw [if_neg hty, if_neg hty]
        show m.expenses + t.amount + _ = _
        ring
    · rw [if_neg hm]
      have h2 : ∃ m2 ∈ rest, matchesTx m2 t = true := by
        rcases h with ⟨m2, hmem, hmt⟩
        rcases List.mem_cons.mp hmem with h3 | h3
        · exact absurd (h3 ▸ hmt) hm
        · exact ⟨m2, h3, hmt⟩
      simp only [List.map_cons, List.sum_cons, ih h2]
      ring

theorem matches_exists_addTx (ms : List MonthBucket) (t t2 : Transaction)
    (h : ∃ m ∈ ms, matchesTx m t2 = true) :
    ∃ m ∈ addTxToChart ms t, matchesTx m t2 = true := by
  obtain ⟨m, hmem, hmt⟩ := h
  have hkey : bucketKey m = (t2.date.year, t2.date.month) :=
    (matchesTx_iff_key m t2).mp hmt
  have hmem2 : (t2.date.year, t2.date.month) ∈
      (addTxToChart ms t).map bucketKey := by
    rw [addTxToChart_keys]
    exact hkey ▸ List.mem_map_of_mem bucketKey hmem
  obtain ⟨m2, hm2, hkey2⟩ := List.mem_map.mp hmem2
  exact ⟨m2, hm2, (matchesTx_iff_key m2 t2).mpr hkey2⟩

theorem foldl_addTxToChart_income (ts : List Transaction)
    (ms : List MonthBucket)
    (h : ∀ t ∈ ts, ∃ m ∈ ms, matchesTx m t = true) :
    ((ts.foldl addTxToChart ms).map (·.income)).sum =
      (ms.map (·.income)).sum +
        (ts.map (fun t => if t.type == "income" then t.amount else 0)).sum := by
  induction ts generalizing ms with
  | nil => simp
  | cons t ts ih =>
    simp only [List.foldl_cons, List.map_cons, List.sum_cons]
    rw [ih (addTxToChart ms t)
      (fun t2 ht2 => matches_exists_addTx ms t t2
        (h t2 (List.mem_cons_of_mem t ht2)))]
    rw [addTxToChart_income_sum ms t (h t (List.mem_cons_self t ts))]
    ring

theorem foldl_addTxToChart_expenses (ts : List Transaction)
    (ms : List MonthBucket)
    (h : ∀ t ∈ ts, ∃ m ∈ ms, matchesTx m t = true) :
    ((ts.foldl addTxToChart ms).map (·.expenses)).sum =
      (ms.map (·.expenses)).sum +
        (ts.map (fun t => if t.type == "income" then 0 else t.amount)).sum := by
  induction ts generalizing ms with
  | nil => simp
  | cons t ts ih =>
    simp only [List.foldl_cons, List.map_cons, List.sum_cons]
    rw [ih (addTxToChart ms t)
      (fun t2 ht2 => matches_exists_addTx ms t t2
        (h t2 (List.mem_cons_of_mem t ht2)))]
    rw [addTxToChart_expenses_sum ms t (h t (List.mem_cons_self t ts))]
    ring

theorem chartMonths_map_key (nowYear nowMonth : Int) :
    (chartMonths nowYear nowMonth).map bucketKey =
      [monthDate nowYear (nowMonth - 5), monthDate nowYear (nowMonth - 4),
       monthDate nowYear (nowMonth - 3), monthDate nowYear (nowMonth - 2),
       monthDate nowYear (nowMonth - 1), monthDate nowYear nowMonth] := by
  have h6 : List.range 6 = [0, 1, 2, 3, 4, 5] := rfl
  simp only [chartMonths, h6, List.map_cons, List.map_nil, bucketKey]
  norm_num
  exact ⟨rfl, rfl, rfl, rfl, rfl, rfl⟩

theorem chartMonths_zero (nowYear nowMonth : Int) (b : MonthBucket)
    (hb : b ∈ chartMonths nowYear nowMonth) :
    b.income = 0 ∧ b.expenses = 0 := by
  simp only [chartMonths, List.mem_map] at hb
  obtain ⟨j, hj, rfl⟩ := hb
  exact ⟨rfl, rfl⟩

theorem chartMonths_income_sum (nowYear nowMonth : Int) :
    ((chartMonths nowYear nowMonth).map (·.income)).sum = 0 := by
  apply List.sum_eq_zero
  intro x hx
  simp only [List.mem_map] at hx
  obtain ⟨b, hb, rfl⟩ := hx
  exact (chartMonths_zero nowYear nowMonth b hb).1

theorem chartMonths_expenses_sum (nowYear nowMonth : Int) :
    ((chartMonths nowYear nowMonth).map (·.expenses)).sum = 0 := by
  apply List.sum_eq_zero
  intro x hx
  simp only [List.mem_map] at hx
  obtain ⟨b, hb, rfl⟩ := hx
  exact (chartMonths_zero nowYear nowMonth b hb).2

/-- C7: for every user and every current (year, month), the chart returns
exactly six buckets, keyed oldest-first by the current month and the five
preceding calendar months (via the normalizing `monthDate` arithmetic, so
year boundaries are crossed correctly, as the linear-index list shows), and
a bucket whose month has no matching transaction reports zero income and
zero expenses — it is never omitted. -/
theorem monthlyChart_six_buckets (store : TxStore) (uid : Nat)
    (nowYear nowMonth : Int) :
    (monthlyChart store uid nowYear nowMonth).length = 6 ∧
    (monthlyChart store uid nowYear nowMonth).map bucketKey =
      [monthDate nowYear (nowMonth - 5), monthDate nowYear (nowMonth - 4),
       monthDate nowYear (nowMonth - 3), monthDate nowYear (nowMonth - 2),
       monthDate nowYear (nowMonth - 1), monthDate nowYear nowMonth] ∧
    (monthlyChart store uid nowYear nowMonth).map bucketIdx =
      [nowYear * 12 + nowMonth - 5, nowYear * 12 + nowMonth - 4,
       nowYear * 12 + nowMonth - 3, nowYear * 12 + nowMonth - 2,
       nowYear * 12 + nowMonth - 1, nowYear * 12 + nowMonth] ∧
    (∀ b ∈ monthlyChart store uid nowYear nowMonth,
      (txsOf store uid).filter (fun t => matchesTx b t) = [] →
      b.income = 0 ∧ b.expenses = 0) := by
  have hkeys : (monthlyChart store uid nowYear nowMonth).map bucketKey =
      [monthDate nowYear (nowMonth - 5), monthDate nowYear (nowMonth - 4),
       monthDate nowYear (nowMonth - 3), monthDate nowYear (nowMonth - 2),
       monthDate nowYear (nowMonth - 1), monthDate nowYear nowMonth] := by
    rw [monthlyChart, foldl_addTxToChart_keys, chartMonths_map_key]
  refine ⟨?_, hkeys, ?_, ?_⟩
  · have hlen := congrArg List.length hkeys
    simpa using hlen
  · have hbi : (monthlyChart store uid nowYear nowMonth).map bucketIdx =
        ((monthlyChart store uid nowYear nowMonth).map bucketKey).map
          (fun k => k.1 * 12 + k.2) := by
      rw [List.map_map]
      rfl
    rw [hbi, hkeys]
    simp only [List.map_cons, List.map_nil, monthDate, List.cons.injEq,
      and_true]
    refine ⟨?_, ?_, ?_, ?_, ?_, ?_⟩ <;> omega
  · intro b hb hfilter
    rw [monthlyChart] at hb
    rcases foldl_addTxToChart_mem_src _ _ b hb with h | h
    · exact chartMonths_zero nowYear nowMonth b h
    · obtain ⟨t, ht, hm⟩ := h
      have ht2 : t ∈ txsOf store uid := (List.mem_filter.mp ht).1
      have hin : t ∈ (txsOf store uid).filter (fun t => matchesTx b t) :=
        List.mem_filter.mpr ⟨ht2, hm⟩
      rw [hfilter] at hin
      simp at hin

/-- Witness for C7 on an empty store at November 2026 (month index 9,
0-based): six buckets and a zeroed bucket for May 2026. -/
theorem monthlyChart_six_buckets_witness :
    (monthlyChart [] 7 2026 9).length = 6 ∧
    (({ month := 4, year := 2026, income := 0, expenses := 0 } :
        MonthBucket).income = 0 ∧
      ({ month := 4, year := 2026, income := 0, expenses := 0 } :
        MonthBucket).expenses = 0) :=
  ⟨(monthlyChart_six_buckets [] 7 2026 9).1,
   (monthlyChart_six_buckets [] 7 2026 9).2.2.2
     { month := 4, year := 2026, income := 0, expenses := 0 }
     (by decide) (by decide)⟩

theorem sum_if_income_filter (l : List Transaction) :
    (l.map (fun t => if t.type == "income" then t.amount else 0)).sum =
      ((l.filter (fun t => t.type == "income")).map (·.amount)).sum := by
  induction l with
  | nil => rfl
  | cons t l ih =>
    by_cases h : t.type = "income"
    · simp [List.filter_cons, h]
      simpa using ih
    · simp [List.filter_cons, h]
      simpa using ih

theorem sum_if_expense_filter (l : List Transaction)
    (hl : ∀ t ∈ l, t.type = "income" ∨ t.type = "expense") :
    (l.map (fun t => if t.type == "income" then 0 else t.amount)).sum =
      ((l.filter (fun t => t.type == "expense")).map (·.amount)).sum := by
  induction l with
  | nil => rfl
  | cons t l ih =>
    have hrest : ∀ t2 ∈ l, t2.type = "income" ∨ t2.type = "expense" :=
      fun t2 h2 => hl t2 (List.mem_cons_of_mem t h2)
    rcases hl t (List.mem_cons_self t l) with h | h
    · simp [List.filter_cons, h]
      simpa using ih hrest
    · simp [List.filter_cons, h]
      simpa using ih hrest

theorem foldl_add_amount (l : List Transaction) (a : ℚ) :
    l.foldl (fun sum t => sum + t.amount) a = a + (l.map (·.amount)).sum := by
  induction l generalizing a with
  | nil => simp
  | cons t l ih =>
    simp only [List.foldl_cons, List.map_cons, List.sum_cons, ih]
    ring

/-- C8: when every transaction of the user lies inside the six-month chart
window (and has a well-formed calendar month and a kind from
income/expense), the chart's bucket totals sum to the summary totals, and
the summary balance is income minus expenses. -/
theorem chartTotals_eq_summary (store : TxStore) (uid : Nat)
    (nowYear nowMonth : Int)
    (hw : ∀ t ∈ txsOf store uid,
      (t.type = "income" ∨ t.type = "expense") ∧
      0 ≤ t.date.month ∧ t.date.month < 12 ∧
      nowYear * 12 + nowMonth - 5 ≤ dateIdx t.date ∧
      dateIdx t.date ≤ nowYear * 12 + nowMonth) :
    ((monthlyChart store uid nowYear nowMonth).map (·.income)).sum =
      (summaryStats store uid).income ∧
    ((monthlyChart store uid nowYear nowMonth).map (·.expenses)).sum =
      (summaryStats store uid).expenses ∧
    (summaryStats store uid).balance =
      (summaryStats store uid).income - (summaryStats store uid).expenses := by
  have hfilter : (txsOf store uid).filter
      (fun t => nowYear * 12 + nowMonth - 5 ≤ dateIdx t.date) =
      txsOf store uid := by
    apply List.filter_eq_self.mpr
    intro t ht
    simpa using (hw t ht).2.2.2.1
  have hex : ∀ t ∈ txsOf store uid,
      ∃ m ∈ chartMonths nowYear nowMonth, matchesTx m t = true := by
    intro t ht
    obtain ⟨-, hm0, hm12, hlo, hhi⟩ := hw t ht
    have hcase : dateIdx t.date = nowYear * 12 + nowMonth - 5 ∨
        dateIdx t.date = nowYear * 12 + nowMonth - 4 ∨
        dateIdx t.date = nowYear * 12 + nowMonth - 3 ∨
        dateIdx t.date = nowYear * 12 + nowMonth - 2 ∨
        dateIdx t.date = nowYear * 12 + nowMonth - 1 ∨
        dateIdx t.date = nowYear * 12 + nowMonth := by omega
    simp only [dateIdx] at hcase
    have hkmem : (t.date.year, t.date.month) ∈
        (chartMonths nowYear nowMonth).map bucketKey := by
      rw [chartMonths_map_key]
      simp only [monthDate, List.mem_cons, List.not_mem_nil, or_false,
        Prod.mk.injEq]
      rcases hcase with h | h | h | h | h | h
      · exact Or.inl ⟨by omega, by omega⟩
      · exact Or.inr (Or.inl ⟨by omega, by omega⟩)
      · exact Or.inr (Or.inr (Or.inl ⟨by omega, by omega⟩))
      · exact Or.inr (Or.inr (Or.inr (Or.inl ⟨by omega, by omega⟩)))
      · exact Or.inr (Or.inr (Or.inr (Or.inr (Or.inl ⟨by omega, by omega⟩))))
      · exact Or.inr (Or.inr (Or.inr (Or.inr (Or.inr ⟨by omega, by omega⟩))))
    obtain ⟨m, hmmem, hkeq⟩ := List.mem_map.mp hkmem
    exact ⟨m, hmmem, (matchesTx_iff_key m t).mpr hkeq⟩
  have hincome : (summaryStats store uid).income =
      (((txsOf store uid).filter (fun t => t.type == "income")).map
        (·.amount)).sum := by
    show ((txsOf store uid).filter (fun t => t.type == "income")).foldl
      (fun sum t => sum + t.amount) 0 = _
    rw [foldl_add_amount, zero_add]
  have hexpenses : (summaryStats store uid).expenses =
      (((txsOf store uid).filter (fun t => t.type == "expense")).map
        (·.amount)).sum := by
    show ((txsOf store uid).filter (fun t => t.type == "expense")).foldl
      (fun sum t => sum + t.amount) 0 = _
    rw [foldl_add_amount, zero_add]
  refine ⟨?_, ?_, rfl⟩
  · rw [monthlyChart, hfilter, foldl_addTxToChart_income _ _ hex,
      chartMonths_income_sum, zero_add, sum_if_income_filter, hincome]
  · rw [monthlyChart, hfilter, foldl_addTxToChart_expenses _ _ hex,
      chartMonths_expenses_sum, zero_add,
      sum_if_expense_filter _ (fun t ht => (hw t ht).1), hexpenses]

/-- The spec's worked example: income 100 and expense 40 in January 2026,
income 50 in February 2026. -/
def tJan100 : Transaction :=
  { userId := 7, type := "income", category := "Salário",
    description := "Janeiro", amount := 100, date := { year := 2026, month := 0 } }

def tJan40 : Transaction :=
  { userId := 7, type := "expense", category := "Mercado",
    description := "Janeiro", amount := 40, date := { year := 2026, month := 0 } }

def tFev50 : Transaction :=
  { userId := 7, type := "income", category := "Extra",
    description := "Fevereiro", amount := 50, date := { year := 2026, month := 1 } }

/-- The example store. -/
def txsExample : TxStore := [(1, tJan100), (2, tJan40), (3, tFev50)]

/-- Witness for C8 at the example store with current month February 2026:
bucket totals match the summary, which is income 150, expenses 40,
balance 110. -/
theorem chartTotals_eq_summary_witness :
    (((monthlyChart txsExample 7 2026 1).map (·.income)).sum =
        (summaryStats txsExample 7).income ∧
      ((monthlyChart txsExample 7 2026 1).map (·.expenses)).sum =
        (summaryStats txsExample 7).expenses ∧
      (summaryStats txsExample 7).balance =
        (summaryStats txsExample 7).income - (summaryStats txsExample 7).expenses) ∧
    (summaryStats txsExample 7).income = 150 ∧
    (summaryStats txsExample 7).expenses = 40 ∧
    (summaryStats txsExample 7).balance = 110 :=
  ⟨chartTotals_eq_summary txsExample 7 2026 1 (by decide),
   by norm_num [summaryStats, txsOf, txsExample, tJan100, tJan40, tFev50,
     List.filter_cons, List.filter_nil, List.foldl_cons, List.foldl_nil,
     (show "expense" ≠ "income" by decide),
     (show "income" ≠ "expense" by decide)]⟩

end OrganizeFi
